import Mathlib

/-!
Shallow embedding of the dispatch and edit-tracking core of the `poise`
command framework (files `src/prefix/track_edits.rs`, `src/prefix/structs.rs`,
`src/framework/mod.rs`), together with proofs settling the specification
claims about it.

Machine conventions: platform snowflake ids are `Nat`; timestamps are `Int`
(an absolute instant in unspecified fixed units, matching `chrono` datetime
arithmetic where subtraction yields a possibly negative duration and
`to_std` fails exactly on negative durations); `std::time::Duration` is a
nonnegative amount, `Nat`; permission bitsets are `Nat` with bitwise
operations.
-/

namespace Poise

abbrev MessageId := Nat
abbrev ChannelId := Nat
abbrev GuildId := Nat
abbrev UserId := Nat
abbrev RoleId := Nat

/-- The fields of `serenity::Message` that `update_message` touches, plus
`embeds` (deliberately not updated in the source) and the timestamp fields
used by `EditTracker::purge`. `author`, `mentions`, `attachments`, `embeds`
carry opaque payloads modelled as `Nat` codes. -/
structure Message where
  id : MessageId
  channel_id : ChannelId
  guild_id : Option GuildId
  kind : Nat
  content : String
  tts : Bool
  pinned : Bool
  timestamp : Int
  edited_timestamp : Option Int
  author : Nat
  mention_everyone : Bool
  mentions : List Nat
  mention_roles : List RoleId
  attachments : List Nat
  embeds : List Nat
  deriving DecidableEq, Repr

/-- `serenity::MessageUpdateEvent`: `id` and `channel_id` are always present;
`guild_id` is an `Option` in both the event and the message; every other
field is optional ("partial update"). -/
structure MessageUpdateEvent where
  id : MessageId
  channel_id : ChannelId
  guild_id : Option GuildId
  kind : Option Nat
  content : Option String
  tts : Option Bool
  pinned : Option Bool
  timestamp : Option Int
  edited_timestamp : Option Int
  author : Option Nat
  mention_everyone : Option Bool
  mentions : Option (List Nat)
  mention_roles : Option (List RoleId)
  attachments : Option (List Nat)
  embeds : Option (List Nat)
  deriving DecidableEq, Repr

/-- `update_message` (track_edits.rs lines 6–47): `id`, `channel_id` and
`guild_id` are assigned unconditionally; each remaining field is assigned
only when present in the update; the `embeds` assignment is commented out in
the source and hence omitted. -/
def update_message (message : Message) (update : MessageUpdateEvent) : Message :=
  { message with
    id := update.id
    channel_id := update.channel_id
    guild_id := update.guild_id
    kind := update.kind.getD message.kind
    content := update.content.getD message.content
    tts := update.tts.getD message.tts
    pinned := update.pinned.getD message.pinned
    timestamp := update.timestamp.getD message.timestamp
    edited_timestamp :=
      match update.edited_timestamp with
      | some t => some t
      | none => message.edited_timestamp
    author := update.author.getD message.author
    mention_everyone := update.mention_everyone.getD message.mention_everyone
    mentions := update.mentions.getD message.mentions
    mention_roles := update.mention_roles.getD message.mention_roles
    attachments := update.attachments.getD message.attachments }

/-- `serenity::CustomMessage::new().build()`: a message with all fields at
their defaults. -/
def defaultMessage : Message :=
  { id := 0, channel_id := 0, guild_id := none, kind := 0, content := ""
    tts := false, pinned := false, timestamp := 0, edited_timestamp := none
    author := 0, mention_everyone := false, mentions := [], mention_roles := []
    attachments := [], embeds := [] }

/-- `EditTracker` (track_edits.rs lines 49–52): a retention window and a
vector of (user message, bot response) pairs. -/
structure EditTracker where
  max_duration : Nat
  cache : List (Message × Message)
  deriving DecidableEq, Repr

/-- `EditTracker::for_timespan`. -/
def EditTracker.for_timespan (duration : Nat) : EditTracker :=
  { max_duration := duration, cache := [] }

/-- The in-place mutation performed by `process_message_update` on the cache
vector: the first entry whose user message has the update's id gets its user
message replaced by the merged message; later entries are untouched. -/
def updateFirst (cache : List (Message × Message)) (update : MessageUpdateEvent) :
    List (Message × Message) :=
  match cache with
  | [] => []
  | (m, r) :: rest =>
    if m.id = update.id then (update_message m update, r) :: rest
    else (m, r) :: updateFirst rest update

/-- `EditTracker::process_message_update` (track_edits.rs lines 64–83):
finds the first cached entry whose trigger has the update's id; if found,
merges the update into the stored trigger copy in place and returns a clone
of the merged message; otherwise returns the update merged into a default
message, leaving the cache unchanged. -/
def EditTracker.process_message_update (t : EditTracker) (update : MessageUpdateEvent) :
    EditTracker × Message :=
  match t.cache.find? (fun p => p.1.id = update.id) with
  | some (m, _) =>
    ({ t with cache := updateFirst t.cache update }, update_message m update)
  | none => (t, update_message defaultMessage update)

/-- `EditTracker::purge` (track_edits.rs lines 85–95) with the current time
passed explicitly: retain an entry iff `(now - last_update).to_std()`
succeeds (the difference is nonnegative) and the age is strictly below
`max_duration`. -/
def EditTracker.purge (t : EditTracker) (now : Int) : EditTracker :=
  { t with cache := t.cache.filter (fun p =>
      let last_update := p.1.edited_timestamp.getD p.1.timestamp
      decide (0 ≤ now - last_update) && decide (now - last_update < (t.max_duration : Int))) }

/-- `EditTracker::find_bot_response` (track_edits.rs lines 97–106): the bot
response of the first cached entry whose trigger has the given id. -/
def EditTracker.find_bot_response (t : EditTracker) (user_msg_id : MessageId) :
    Option Message :=
  (t.cache.find? (fun p => p.1.id = user_msg_id)).map (fun p => p.2)

/-- `EditTracker::register_response` (track_edits.rs lines 109–111): pushes
the pair onto the cache vector, with no uniqueness enforcement. -/
def EditTracker.register_response (t : EditTracker) (user_msg bot_response : Message) :
    EditTracker :=
  { t with cache := t.cache ++ [(user_msg, bot_response)] }

/-! ## Permission gate (framework/mod.rs lines 10–73) -/

/-- Permission bitsets (`serenity::Permissions`), as `Nat` bit patterns.
`perms.contains required` is `perms &&& required = required`. -/
abbrev Permissions := Nat

def Permissions.holds (perms required : Permissions) : Bool :=
  perms &&& required = required

/-- A channel object as stored in `Guild::channels`: either a guild channel
(with an opaque payload) or some other channel variant. -/
inductive Channel where
  | guildChannel (payload : Nat)
  | otherChannel (payload : Nat)
  deriving DecidableEq, Repr

/-- A guild member (only its identity matters to the gate). -/
structure Member where
  user_id : UserId
  deriving DecidableEq, Repr

/-- The pieces of a cached `serenity::Guild` that `check_permissions` reads:
the channel map, the member map, and the effective-permission computation
`Guild::user_permissions_in`, which is fallible. -/
structure Guild where
  channels : ChannelId → Option Channel
  members : UserId → Option Member
  user_permissions_in : Nat → Member → Except Unit Permissions

/-- The platform collaborators `check_permissions` consults: the local guild
cache and the HTTP member fetch used as fallback. -/
structure Platform where
  cache_guild : GuildId → Option Guild
  http_get_member : GuildId → UserId → Except Unit Member

/-- `check_permissions` (framework/mod.rs lines 10–57). Returns the decision
together with whether the non-guild-channel diagnostic (`println!` at lines
30–35) was emitted. The Rust function has return type `bool`, so every
failure path yields a decision rather than an error. -/
def check_permissions (p : Platform) (guild_id : Option GuildId)
    (channel_id : ChannelId) (author_id : UserId)
    (required_permissions : Permissions) : Bool × Bool :=
  if required_permissions = 0 then (true, false)
  else
    match guild_id with
    | none => (true, false)
    | some gid =>
      match p.cache_guild gid with
      | none => (false, false)
      | some guild =>
        match guild.channels channel_id with
        | some (Channel.guildChannel ch) =>
          let member :=
            match guild.members author_id with
            | some m => some m
            | none => (p.http_get_member gid author_id).toOption
          match member with
          | none => (false, false)
          | some m =>
            match guild.user_permissions_in ch m with
            | Except.ok perms => (Permissions.holds perms required_permissions, false)
            | Except.error _ => (false, false)
        | some (Channel.otherChannel _) => (false, true)
        | none => (false, false)

/-- `check_required_permissions_and_owners_only` (framework/mod.rs lines
59–73): the owners-only test runs first and returns `false` without
consulting `check_permissions`. -/
def check_required_permissions_and_owners_only (p : Platform) (owners : List UserId)
    (guild_id : Option GuildId) (channel_id : ChannelId) (author_id : UserId)
    (required_permissions : Permissions) (owners_only : Bool) : Bool :=
  if owners_only && !(owners.contains author_id) then false
  else (check_permissions p guild_id channel_id author_id required_permissions).1

/-! ## Framework event dispatch (framework/mod.rs lines 75–298)

The `Framework` state that `Framework::event` reads or writes: the bot id
mutex, the one-shot `user_data_setup` callback slot, the write-once
`user_data` cell, and the edit tracker from the prefix options. The setup
callback is modelled by the `Except E U` result it would produce; the
dispatch pipelines `prefix::dispatch_message` / `slash::dispatch_interaction`
live in modules not present under `src/`, so their outcome is carried on the
event itself as an oracle (`DispatchOutcome`), exactly the
`Result<(), Option<(E, ctx)>>` shape that `Framework::event` matches on,
with the error context reduced to the one bit the routing reads:
`ctx.command.options.on_error.is_some()`. -/

inductive ErrTag where
  | setupTag
  | listenerTag
  | commandPrefixTag
  deriving DecidableEq, Repr

/-- Observable callback activity of one `Framework::event` call. -/
inductive Invocation (E : Type) where
  /-- the `user_data_setup` callback was called -/
  | setupCall
  /-- a command's own `options.on_error` callback received the error -/
  | commandOnError (e : E)
  /-- the framework-wide `options.on_error` received the error, tagged -/
  | globalOnError (e : E) (tag : ErrTag)
  /-- `bot_response.delete` was attempted for the given deleted trigger id -/
  | deleteAttempt (id : MessageId)
  /-- the `println!` warning after a failed bot-response delete -/
  | logDeleteWarning
  /-- the framework-wide `options.listener` callback was called -/
  | listenerCall
  deriving DecidableEq, Repr

/-- Result of `dispatch_message`: `Ok(())`, `Err(None)` (not a command), or
`Err(Some((error, ctx)))`, with `hasOwnHandler` recording whether
`ctx.command.options.on_error` is `Some`. -/
inductive DispatchOutcome (E : Type) where
  | ok
  | errNone
  | errSome (e : E) (hasOwnHandler : Bool)
  deriving DecidableEq, Repr

/-- The events `Framework::event` matches on (others fall into `other`). -/
inductive FEvent (E : Type) where
  | ready (bot_user_id : UserId)
  | message (outcome : DispatchOutcome E)
  | messageUpdate (update : MessageUpdateEvent) (outcome : DispatchOutcome E)
  | messageDelete (deleted_message_id : MessageId) (delete_ok : Bool)
  | other
  deriving DecidableEq, Repr

structure FrameworkModel (U E : Type) where
  bot_id : Option UserId
  user_data_setup : Option (Except E U)
  user_data : Option U
  edit_tracker : Option EditTracker

/-- A fresh `Framework` (framework/mod.rs `Framework::new`): setup present,
user data and bot id unset. -/
def initModel (U E : Type) (setup : Except E U) (tracker : Option EditTracker) :
    FrameworkModel U E :=
  { bot_id := none, user_data_setup := some setup, user_data := none
    edit_tracker := tracker }

/-- The `match &event { ... }` body of `Framework::event` (framework/mod.rs
lines 198–288). -/
def handleMatch {U E : Type} (s : FrameworkModel U E) :
    FEvent E → FrameworkModel U E × List (Invocation E)
  | FEvent.ready id =>
    let s1 := { s with bot_id := some id }
    match s1.user_data_setup with
    | some setup =>
      let s2 := { s1 with user_data_setup := none }
      match setup with
      | Except.ok u =>
        -- `let _: Result<_, _> = self.user_data.set(user_data);`
        ({ s2 with user_data := if s2.user_data.isNone then some u else s2.user_data },
         [Invocation.setupCall])
      | Except.error e =>
        (s2, [Invocation.setupCall, Invocation.globalOnError e ErrTag.setupTag])
    | none => (s1, [])
  | FEvent.message outcome =>
    match outcome with
    | DispatchOutcome.errSome e own =>
      (s, if own then [Invocation.commandOnError e]
          else [Invocation.globalOnError e ErrTag.commandPrefixTag])
    | _ => (s, [])
  | FEvent.messageUpdate update outcome =>
    match s.edit_tracker with
    | some t =>
      let s1 := { s with edit_tracker := some (t.process_message_update update).1 }
      match outcome with
      | DispatchOutcome.errSome e _own =>
        (s1, [Invocation.globalOnError e ErrTag.commandPrefixTag])
      | _ => (s1, [])
    | none => (s, [])
  | FEvent.messageDelete id delete_ok =>
    match s.edit_tracker with
    | some t =>
      match t.find_bot_response id with
      | some _resp =>
        (s, if delete_ok then [Invocation.deleteAttempt id]
            else [Invocation.deleteAttempt id, Invocation.logDeleteWarning])
      | none => (s, [])
    | none => (s, [])
  | FEvent.other => (s, [])

/-- The busy-wait loop of `Framework::get_user_data` (framework/mod.rs lines
183–192), with explicit fuel: each unit of fuel is one sleep cycle; the loop
never mutates state, so it returns only if `user_data` is already set. -/
def get_user_data_fuel {U : Type} (fuel : Nat) (user_data : Option U) : Option U :=
  match user_data with
  | some x => some x
  | none =>
    match fuel with
    | 0 => none
    | fuel + 1 => get_user_data_fuel fuel (none : Option U)

/-- `Framework::event` in full: the event match, then the trailing listener
call, which first awaits `get_user_data` and therefore only happens when
`user_data` is set after the match. -/
def handleEvent {U E : Type} (s : FrameworkModel U E) (ev : FEvent E) :
    FrameworkModel U E × List (Invocation E) :=
  let (s2, invs) := handleMatch s ev
  if s2.user_data.isSome then (s2, invs ++ [Invocation.listenerCall]) else (s2, invs)

/-- Process a list of events sequentially, keeping each event's resulting
state and invocation list. -/
def runTrace {U E : Type} (s : FrameworkModel U E) :
    List (FEvent E) → List (FrameworkModel U E × List (Invocation E))
  | [] => []
  | ev :: evs =>
    let step := handleEvent s ev
    step :: runTrace step.1 evs

/-! ## `send_prefix_reply` (track_edits.rs lines 114–203) -/

/-- `crate::CreateReply`: content, optional embed, attachments (opaque `Nat`
payloads), and the `ephemeral` flag that `send_prefix_reply` destructures
and ignores. -/
structure CreateReply where
  content : Option String
  embed : Option Nat
  attachments : List Nat
  ephemeral : Bool
  deriving DecidableEq, Repr

/-- The HTTP edit request built in the `existing_response` branch: content
(empty string when the reply has none), the embed list (`set_embed` /
`set_embeds(Vec::new())`), the attachment list after the `"attachments": []`
reset, and the allowed-mentions field of the builder, which that branch
never touches. -/
structure EditRequest where
  content : String
  embeds : List Nat
  attachments : List Nat
  allowed_mentions : Option Nat
  deriving DecidableEq, Repr

/-- The HTTP send request built in the `else` branch: optional content and
embed, the allowed-mentions setting, and attached files. -/
structure SendRequest where
  content : Option String
  embed : Option Nat
  allowed_mentions : Option Nat
  files : List Nat
  deriving DecidableEq, Repr

inductive ReplyAction where
  | editExisting (request : EditRequest)
  | sendNew (request : SendRequest)
  deriving DecidableEq, Repr

/-- The `lock_edit_tracker` closure (track_edits.rs lines 127–140):
`cmd_track_edits` is `Some b` when `ctx.command` is present with
`options.track_edits = b`; the framework tracker is returned unless a
present command opts out. -/
def lock_edit_tracker (cmd_track_edits : Option Bool)
    (framework_tracker : Option EditTracker) : Option EditTracker :=
  match cmd_track_edits with
  | some b => if !b then none else framework_tracker
  | none => framework_tracker

/-- Modelled from the platform side (serenity, outside this repository):
`Message::edit` on success updates the local message copy with the
requested content, embeds and attachments. -/
def edited_message (m : Message) (request : EditRequest) : Message :=
  { m with content := request.content, embeds := request.embeds
           attachments := request.attachments }

/-- The write-back `*response_entry = response` through
`find_bot_response`: replace the bot response of the first cached entry
whose trigger has the given id, leaving everything else alone. -/
def replaceFirstResponse (cache : List (Message × Message)) (user_msg_id : MessageId)
    (response : Message) : List (Message × Message) :=
  match cache with
  | [] => []
  | (m, r) :: rest =>
    if m.id = user_msg_id then (m, response) :: rest
    else (m, r) :: replaceFirstResponse rest user_msg_id response

def replace_bot_response (t : EditTracker) (user_msg_id : MessageId)
    (response : Message) : EditTracker :=
  { t with cache := replaceFirstResponse t.cache user_msg_id response }

/-- `send_prefix_reply` (track_edits.rs lines 114–203). `new_response` is
the message the platform returns from `send_message` (external input).
Returns the HTTP request issued and the resulting framework tracker. -/
def send_prefix_reply (cmd_track_edits : Option Bool)
    (framework_tracker : Option EditTracker) (allowed_mentions : Option Nat)
    (msg : Message) (reply : CreateReply) (new_response : Message) :
    ReplyAction × Option EditTracker :=
  let existing_response :=
    (lock_edit_tracker cmd_track_edits framework_tracker).bind
      (fun t => t.find_bot_response msg.id)
  match existing_response with
  | some response =>
    let request : EditRequest :=
      { content := reply.content.getD ""
        embeds := match reply.embed with | some e => [e] | none => []
        attachments := reply.attachments
        allowed_mentions := none }
    let response2 := edited_message response request
    let tracker2 :=
      match lock_edit_tracker cmd_track_edits framework_tracker with
      | some t =>
        match t.find_bot_response msg.id with
        | some _ => some (replace_bot_response t msg.id response2)
        | none => some t
      | none => framework_tracker
    (ReplyAction.editExisting request, tracker2)
  | none =>
    let request : SendRequest :=
      { content := reply.content
        embed := reply.embed
        allowed_mentions := allowed_mentions
        files := reply.attachments }
    let tracker2 :=
      match lock_edit_tracker cmd_track_edits framework_tracker with
      | some t => some (t.register_response msg new_response)
      | none => framework_tracker
    (ReplyAction.sendNew request, tracker2)

/-! ## Operation sequences over the edit-tracking cache -/

/-- The cache-mutating operations of the edit tracker, for stating
invariants over arbitrary operation sequences. -/
inductive CacheOp where
  | record (user_msg bot_response : Message)
  | applyUpdate (update : MessageUpdateEvent)
  | purgeAt (now : Int)
  deriving Repr

def applyOp (t : EditTracker) : CacheOp → EditTracker
  | CacheOp.record m r => t.register_response m r
  | CacheOp.applyUpdate u => (t.process_message_update u).1
  | CacheOp.purgeAt now => t.purge now

def applyOps (t : EditTracker) : List CacheOp → EditTracker
  | [] => t
  | op :: ops => applyOps (applyOp t op) ops

/-- The trigger ids recorded by the `record` operations of a sequence, in
order. -/
def recordIds : List CacheOp → List MessageId
  | [] => []
  | CacheOp.record m _ :: ops => m.id :: recordIds ops
  | CacheOp.applyUpdate _ :: ops => recordIds ops
  | CacheOp.purgeAt _ :: ops => recordIds ops

/-- The trigger ids of the cached exchanges, in cache order. -/
def triggerIds (t : EditTracker) : List MessageId :=
  t.cache.map (fun p => p.1.id)

/-- Expiry condition of `EditTracker::purge` for one entry: the age
(now minus the latest edit timestamp, or the creation timestamp if never
edited) is negative (the `to_std` failure) or at least `max_duration`. -/
def expired (max_duration : Nat) (now : Int) (m : Message) : Bool :=
  let last_update := m.edited_timestamp.getD m.timestamp
  decide (now - last_update < 0) || decide ((max_duration : Int) ≤ now - last_update)

/-! ## Concrete fixtures used by counterexamples and witnesses -/

def mTrig : Message :=
  { defaultMessage with id := 10, channel_id := 1, guild_id := some 5
                        content := "orig", timestamp := 100, author := 1 }

def mResp : Message :=
  { defaultMessage with id := 99, channel_id := 1, content := "reply"
                        timestamp := 101, author := 2 }

def mResp2 : Message :=
  { defaultMessage with id := 98, channel_id := 1, content := "reply2"
                        timestamp := 102, author := 2 }

def tOne : EditTracker := { max_duration := 300, cache := [(mTrig, mResp)] }

/-- A partial update targeting `mTrig` with every optional field absent
(in particular `guild_id`, which is an optional field of the update event). -/
def uClear : MessageUpdateEvent :=
  { id := 10, channel_id := 1, guild_id := none, kind := none, content := none
    tts := none, pinned := none, timestamp := none, edited_timestamp := none
    author := none, mention_everyone := none, mentions := none
    mention_roles := none, attachments := none, embeds := none }

/-- A partial update targeting `mTrig` carrying new content and an edit
timestamp, and keeping `guild_id` present. -/
def uContent : MessageUpdateEvent :=
  { uClear with guild_id := some 5, content := some "edited"
                edited_timestamp := some 150 }

/-- A guild whose channel `2` is present but is not a guild channel and
whose channel `3` is absent; member `3` is not cached; the platform member
fetch and permission computation succeed. -/
def guildW : Guild :=
  { channels := fun cid =>
      if cid = 2 then some (Channel.otherChannel 0)
      else if cid = 4 then some (Channel.guildChannel 7)
      else none
    members := fun uid => if uid = 1 then some { user_id := 1 } else none
    user_permissions_in := fun _ m =>
      if m.user_id = 1 then Except.ok 8 else Except.error () }

def platformW : Platform :=
  { cache_guild := fun gid => if gid = 1 then some guildW else none
    http_get_member := fun _ uid =>
      if uid = 9 then Except.ok { user_id := 9 } else Except.error () }

/-- A framework state with edit tracking configured, setup already consumed
and user data not set. -/
def sTracked : FrameworkModel Unit Nat :=
  { bot_id := none, user_data_setup := none, user_data := none
    edit_tracker := some tOne }

def replyW : CreateReply :=
  { content := some "hello", embed := some 3, attachments := [6], ephemeral := false }

/-- The edit request `send_prefix_reply` builds for `replyW`. -/
def editRequestW : EditRequest :=
  { content := "hello", embeds := [3], attachments := [6], allowed_mentions := none }

/-- The send request `send_prefix_reply` builds for `replyW` with allowed
mentions configured as `some 5`. -/
def sendRequestW : SendRequest :=
  { content := some "hello", embed := some 3, allowed_mentions := some 5, files := [6] }

/-! ## Claim C1: partial-update merge and lookup -/

theorem update_message_id (m : Message) (u : MessageUpdateEvent) :
    (update_message m u).id = u.id := rfl

/-- After the in-place mutation of the first matching entry, lookup by the
update's trigger id finds the merged trigger paired with the untouched
response. -/
theorem find?_updateFirst (cache : List (Message × Message)) (u : MessageUpdateEvent)
    (m r : Message) (h : cache.find? (fun p => p.1.id = u.id) = some (m, r)) :
    (updateFirst cache u).find? (fun p => p.1.id = u.id) =
      some (update_message m u, r) := by
  induction cache with
  | nil => simp at h
  | cons a rest ih =>
    obtain ⟨am, ar⟩ := a
    by_cases hid : am.id = u.id
    · rw [List.find?_cons_of_pos _ (by simpa using hid)] at h
      obtain ⟨rfl, rfl⟩ : am = m ∧ ar = r := by
        constructor <;> injection h with h2 <;> [exact congrArg Prod.fst h2;
          exact congrArg Prod.snd h2]
      rw [updateFirst, if_pos hid]
      exact List.find?_cons_of_pos _ (by simp [update_message_id])
    · rw [List.find?_cons_of_neg _ (by simpa using hid)] at h
      rw [updateFirst, if_neg hid]
      rw [List.find?_cons_of_neg _ (by simpa using hid)]
      exact ih h

/-- C1, counterexample to the claim as stated: `uClear` is a partial update
targeting the cached trigger `mTrig` with every optional field absent; the
claim requires the absent `guild_id` field to retain its prior value
`some 5`, but both the returned merged copy and the stored trigger copy have
`guild_id = none` afterwards. -/
theorem C1_counterexample :
    uClear.guild_id = none ∧ mTrig.guild_id = some 5 ∧
    tOne.cache.find? (fun p => p.1.id = uClear.id) = some (mTrig, mResp) ∧
    (tOne.process_message_update uClear).2.guild_id ≠ mTrig.guild_id ∧
    ((tOne.process_message_update uClear).1.cache.find?
        (fun p => p.1.id = uClear.id)).map (fun p => p.1.guild_id) = some none := by
  decide

/-- C1, amended: for every cached trigger entry and partial update targeting
it, `process_message_update` merges exactly the optional fields present in
the update into the stored trigger copy, leaves every absent optional field
unchanged, deliberately never overwrites `embeds`, and always overwrites
`id`, `channel_id` and `guild_id` with the update's values (so an absent
`guild_id` clears the stored one); the returned message is that merge and a
subsequent lookup by the trigger id finds exactly the merged trigger with
the response untouched. -/
theorem C1_merge (t : EditTracker) (u : MessageUpdateEvent) (m r : Message)
    (hfind : t.cache.find? (fun p => p.1.id = u.id) = some (m, r)) :
    ((t.process_message_update u).2 = update_message m u) ∧
    ((t.process_message_update u).1.cache.find? (fun p => p.1.id = u.id) =
        some (update_message m u, r)) ∧
    ((update_message m u).id = u.id) ∧
    ((update_message m u).channel_id = u.channel_id) ∧
    ((update_message m u).guild_id = u.guild_id) ∧
    ((update_message m u).embeds = m.embeds) ∧
    (u.kind = none → (update_message m u).kind = m.kind) ∧
    (∀ v, u.kind = some v → (update_message m u).kind = v) ∧
    (u.content = none → (update_message m u).content = m.content) ∧
    (∀ v, u.content = some v → (update_message m u).content = v) ∧
    (u.tts = none → (update_message m u).tts = m.tts) ∧
    (∀ v, u.tts = some v → (update_message m u).tts = v) ∧
    (u.pinned = none → (update_message m u).pinned = m.pinned) ∧
    (∀ v, u.pinned = some v → (update_message m u).pinned = v) ∧
    (u.timestamp = none → (update_message m u).timestamp = m.timestamp) ∧
    (∀ v, u.timestamp = some v → (update_message m u).timestamp = v) ∧
    (u.edited_timestamp = none →
      (update_message m u).edited_timestamp = m.edited_timestamp) ∧
    (∀ v, u.edited_timestamp = some v →
      (update_message m u).edited_timestamp = some v) ∧
    (u.author = none → (update_message m u).author = m.author) ∧
    (∀ v, u.author = some v → (update_message m u).author = v) ∧
    (u.mention_everyone = none →
      (update_message m u).mention_everyone = m.mention_everyone) ∧
    (∀ v, u.mention_everyone = some v → (update_message m u).mention_everyone = v) ∧
    (u.mentions = none → (update_message m u).mentions = m.mentions) ∧
    (∀ v, u.mentions = some v → (update_message m u).mentions = v) ∧
    (u.mention_roles = none → (update_message m u).mention_roles = m.mention_roles) ∧
    (∀ v, u.mention_roles = some v → (update_message m u).mention_roles = v) ∧
    (u.attachments = none → (update_message m u).attachments = m.attachments) ∧
    (∀ v, u.attachments = some v → (update_message m u).attachments = v) := by
  refine ⟨?_, ?_, rfl, rfl, rfl, rfl, ?_⟩
  · simp [EditTracker.process_message_update, hfind]
  · have h2 := find?_updateFirst t.cache u m r hfind
    simp [EditTracker.process_message_update, hfind, h2]
  · refine ⟨fun h => by simp [update_message, h], fun v h => by simp [update_message, h],
      fun h => by simp [update_message, h], fun v h => by simp [update_message, h],
      fun h => by simp [update_message, h], fun v h => by simp [update_message, h],
      fun h => by simp [update_message, h], fun v h => by simp [update_message, h],
      fun h => by simp [update_message, h], fun v h => by simp [update_message, h],
      fun h => by simp [update_message, h], fun v h => by simp [update_message, h],
      fun h => by simp [update_message, h], fun v h => by simp [update_message, h],
      fun h => by simp [update_message, h], fun v h => by simp [update_message, h],
      fun h => by simp [update_message, h], fun v h => by simp [update_message, h],
      fun h => by simp [update_message, h], fun v h => by simp [update_message, h],
      fun h => by simp [update_message, h], fun v h => by simp [update_message, h]⟩

/-- C1, witness: the amended theorem applied to the concrete tracker `tOne`
and update `uContent`. -/
theorem C1_merge_witness :
    (tOne.process_message_update uContent).1.cache.find?
        (fun p => p.1.id = uContent.id) =
      some (update_message mTrig uContent, mResp) :=
  (C1_merge tOne uContent mTrig mResp (by decide)).2.1

/-! ## Claim C3: per-identity multiplicity of cache entries -/

/-- The in-place update of `process_message_update` never changes any
trigger id: the only entry it rewrites matched `p.1.id = u.id` and its id is
set to `u.id`. -/
theorem updateFirst_triggerIds (cache : List (Message × Message))
    (u : MessageUpdateEvent) :
    (updateFirst cache u).map (fun p => p.1.id) = cache.map (fun p => p.1.id) := by
  induction cache with
  | nil => rfl
  | cons a rest ih =>
    obtain ⟨am, ar⟩ := a
    by_cases hid : am.id = u.id
    · rw [updateFirst, if_pos hid]
      simp [update_message_id, hid]
    · rw [updateFirst, if_neg hid]
      simpa using ih

theorem process_message_update_triggerIds (t : EditTracker)
    (u : MessageUpdateEvent) :
    triggerIds (t.process_message_update u).1 = triggerIds t := by
  unfold EditTracker.process_message_update
  cases h : t.cache.find? (fun p => p.1.id = u.id) with
  | none => rfl
  | some p =>
    obtain ⟨m, r⟩ := p
    simp [triggerIds, updateFirst_triggerIds]

/-- Along any operation sequence the cache's trigger ids form a sublist of
the starting trigger ids followed by the ids of the `record` operations. -/
theorem triggerIds_applyOps_sublist (ops : List CacheOp) (t : EditTracker) :
    (triggerIds (applyOps t ops)).Sublist (triggerIds t ++ recordIds ops) := by
  induction ops generalizing t with
  | nil =>
    rw [applyOps, recordIds, List.append_nil]
  | cons op ops ih =>
    cases op with
    | record m r =>
      have h := ih (t.register_response m r)
      have he : triggerIds (t.register_response m r) = triggerIds t ++ [m.id] := by
        simp [triggerIds, EditTracker.register_response]
      rw [applyOps, applyOp]
      refine (h.trans ?_)
      rw [he, recordIds, List.append_assoc]
      simp
    | applyUpdate u =>
      have h := ih (t.process_message_update u).1
      rw [applyOps, applyOp]
      rw [process_message_update_triggerIds] at h
      simpa [recordIds] using h
    | purgeAt now =>
      have h := ih (t.purge now)
      rw [applyOps, applyOp]
      have hsub : (triggerIds (t.purge now)).Sublist (triggerIds t) := by
        exact List.Sublist.map _ (List.filter_sublist _)
      refine (h.trans ?_)
      rw [recordIds]
      exact hsub.append_right _

/-- C3, counterexample to the claim as stated: two `register_response`
operations for the same trigger message leave two cache entries with that
trigger identity, because insertion performs no uniqueness enforcement. -/
theorem C3_counterexample :
    ((applyOps (EditTracker.for_timespan 60)
        [CacheOp.record mTrig mResp, CacheOp.record mTrig mResp2]).cache.map
      (fun p => p.1.id)).count mTrig.id = 2 := by
  decide

/-- C3, amended: starting from an empty tracker, for every sequence of
`register_response` / `process_message_update` / `purge` operations in which
no two `record` operations use the same trigger-message id, the cache
contains at most one entry per trigger identity (`process_message_update`
never inserts or changes an identity and `purge` only removes entries). -/
theorem C3_at_most_one (d : Nat) (ops : List CacheOp)
    (h : (recordIds ops).Nodup) :
    ∀ i : MessageId,
      (triggerIds (applyOps (EditTracker.for_timespan d) ops)).count i ≤ 1 := by
  have hsub := triggerIds_applyOps_sublist ops (EditTracker.for_timespan d)
  have hstart : triggerIds (EditTracker.for_timespan d) = [] := rfl
  rw [hstart, List.nil_append] at hsub
  have hnd : (triggerIds (applyOps (EditTracker.for_timespan d) ops)).Nodup :=
    h.sublist hsub
  exact fun i => List.nodup_iff_count_le_one.mp hnd i

/-- C3, witness: the amended theorem applied to a concrete sequence with
distinct record ids, an update and a purge. -/
theorem C3_at_most_one_witness :
    ((recordIds [CacheOp.record mTrig mResp, CacheOp.record mResp2 mResp,
        CacheOp.applyUpdate uContent, CacheOp.purgeAt 1000]).Nodup) ∧
    (triggerIds (applyOps (EditTracker.for_timespan 60)
        [CacheOp.record mTrig mResp, CacheOp.record mResp2 mResp,
         CacheOp.applyUpdate uContent, CacheOp.purgeAt 1000])).count 10 ≤ 1 :=
  ⟨by decide,
   C3_at_most_one 60
     [CacheOp.record mTrig mResp, CacheOp.record mResp2 mResp,
      CacheOp.applyUpdate uContent, CacheOp.purgeAt 1000] (by decide) 10⟩

/-! ## Claim C4: purge removes exactly the expired entries -/

/-- Pointwise: the retain test of `purge` (difference convertible by
`to_std`, i.e. nonnegative, and strictly under `max_duration`) is the
negation of `expired`. -/
theorem keep_eq_not_expired (d : Nat) (now last : Int) :
    (decide (0 ≤ now - last) && decide (now - last < (d : Int))) =
      !(decide (now - last < 0) || decide ((d : Int) ≤ now - last)) := by
  by_cases h1 : (0 : Int) ≤ now - last <;>
    by_cases h2 : now - last < (d : Int) <;>
      simp [h1, h2] <;> omega

/-- C4: `purge` keeps exactly the entries that are not expired at `now`
(where an entry is expired when its age — `now` minus the trigger's latest
edit timestamp, or creation timestamp if never edited — is negative or at
least `max_duration`), preserving order, and is a no-op when no entry is
expired. -/
theorem C4_purge (t : EditTracker) (now : Int) :
    ((t.purge now).cache = t.cache.filter (fun p => !expired t.max_duration now p.1)) ∧
    (∀ p, p ∈ (t.purge now).cache ↔
      p ∈ t.cache ∧ expired t.max_duration now p.1 = false) ∧
    ((∀ p ∈ t.cache, expired t.max_duration now p.1 = false) → t.purge now = t) := by
  have hfe : (t.purge now).cache =
      t.cache.filter (fun p => !expired t.max_duration now p.1) := by
    unfold EditTracker.purge
    refine List.filter_congr ?_
    intro p _
    simpa [expired] using keep_eq_not_expired t.max_duration now
      (p.1.edited_timestamp.getD p.1.timestamp)
  refine ⟨hfe, ?_, ?_⟩
  · intro p
    rw [hfe]
    simp [List.mem_filter]
  · intro hall
    have : (t.purge now).cache = t.cache := by
      rw [hfe]
      refine List.filter_eq_self.mpr ?_
      intro p hp
      simp [hall p hp]
    cases t with
    | mk d cache => simpa [EditTracker.purge] using this

/-- C4, witness: applied to the concrete tracker `tOne` at a time where its
single entry is fresh, `purge` is a no-op; at a time past the window the
entry is removed. -/
theorem C4_purge_witness :
    (tOne.purge 150 = tOne) ∧
    ((tOne.purge 500).cache =
      tOne.cache.filter (fun p => !expired tOne.max_duration 500 p.1)) ∧
    (tOne.purge 500).cache = [] :=
  ⟨(C4_purge tOne 150).2.2 (by decide), (C4_purge tOne 500).1, by decide⟩

/-! ## Claim C5: fail-closed behavior of `check_permissions` -/

/-- C5, counterexample to the claim as stated: with non-empty required
permissions in a cached guild, a channel id that is entirely absent from the
guild's channel map cannot be resolved to a guild channel, and the gate
denies — but no diagnostic is emitted (the `println!` sits only in the
`Some(other_channel)` match arm, not the `None` arm). -/
theorem C5_counterexample :
    platformW.cache_guild 1 = some guildW ∧
    guildW.channels 3 = none ∧
    check_permissions platformW (some 1) 3 1 8 = (false, false) := by
  exact ⟨rfl, rfl, rfl⟩

/-- C5, amended: for non-empty required permissions inside a guild context
the gate denies (returning `false`, never an error — its return type is a
plain decision) whenever the guild is absent from cache, the channel cannot
be resolved to a guild channel, the member is absent from cache and the
platform member fetch fails, or the effective-permission computation errors;
the diagnostic accompanies only the failure where the channel resolves to a
non-guild channel, not the one where the channel is absent from the map. -/
theorem C5_fail_closed (p : Platform) (gid : GuildId) (cid : ChannelId)
    (aid : UserId) (req : Permissions) (hreq : req ≠ 0) :
    (p.cache_guild gid = none →
      check_permissions p (some gid) cid aid req = (false, false)) ∧
    (∀ g, p.cache_guild gid = some g → g.channels cid = none →
      check_permissions p (some gid) cid aid req = (false, false)) ∧
    (∀ g pay, p.cache_guild gid = some g →
      g.channels cid = some (Channel.otherChannel pay) →
      check_permissions p (some gid) cid aid req = (false, true)) ∧
    (∀ g ch, p.cache_guild gid = some g →
      g.channels cid = some (Channel.guildChannel ch) →
      g.members aid = none → p.http_get_member gid aid = Except.error () →
      check_permissions p (some gid) cid aid req = (false, false)) ∧
    (∀ g ch m, p.cache_guild gid = some g →
      g.channels cid = some (Channel.guildChannel ch) →
      g.members aid = some m →
      g.user_permissions_in ch m = Except.error () →
      check_permissions p (some gid) cid aid req = (false, false)) ∧
    (∀ g ch m, p.cache_guild gid = some g →
      g.channels cid = some (Channel.guildChannel ch) →
      g.members aid = none → p.http_get_member gid aid = Except.ok m →
      g.user_permissions_in ch m = Except.error () →
      check_permissions p (some gid) cid aid req = (false, false)) := by
  refine ⟨fun h => ?_, fun g hg hc => ?_, fun g pay hg hc => ?_,
    fun g ch hg hc hm hh => ?_, fun g ch m hg hc hm hp => ?_,
    fun g ch m hg hc hm hh hp => ?_⟩ <;>
    simp [check_permissions, hreq, *, Except.toOption]

/-- C5, witness: the amended theorem applied to the concrete platform
`platformW` — guild `2` is not cached; in guild `1`, channel `3` is absent,
channel `2` is a non-guild channel, and member `7` can be resolved neither
from cache nor over the platform fetch. -/
theorem C5_fail_closed_witness :
    check_permissions platformW (some 2) 3 1 8 = (false, false) ∧
    check_permissions platformW (some 1) 3 1 8 = (false, false) ∧
    check_permissions platformW (some 1) 2 1 8 = (false, true) ∧
    check_permissions platformW (some 1) 4 7 8 = (false, false) :=
  ⟨(C5_fail_closed platformW 2 3 1 8 (by decide)).1 rfl,
   (C5_fail_closed platformW 1 3 1 8 (by decide)).2.1 guildW rfl rfl,
   (C5_fail_closed platformW 1 2 1 8 (by decide)).2.2.1 guildW 0 rfl rfl,
   (C5_fail_closed platformW 1 4 7 8 (by decide)).2.2.2.1 guildW 7 rfl rfl rfl rfl⟩

/-! ## Claim C6: owners-only rejection, checked first -/

/-- C6: an owners-only command rejects every author not in the owner set,
for every platform state whatsoever — in particular the permission
environment (guild cache, member fetch, permission computation, required
bits) is never consulted, which is the short-circuit of the owners-only
test running before `check_permissions`. -/
theorem C6_owners_only (p : Platform) (owners : List UserId)
    (gid : Option GuildId) (cid : ChannelId) (aid : UserId) (req : Permissions)
    (h : owners.contains aid = false) :
    check_required_permissions_and_owners_only p owners gid cid aid req true =
      false := by
  unfold check_required_permissions_and_owners_only
  rw [h]
  simp

/-- C6, witness: author `3` is not in the owner set `[1, 2]`, so the
owners-only command is rejected on the concrete platform `platformW` even
though the author would pass the permission check there. -/
theorem C6_owners_only_witness :
    ([1, 2] : List UserId).contains 3 = false ∧
    check_required_permissions_and_owners_only platformW [1, 2] (some 1) 4 3 8
        true = false :=
  ⟨by decide, C6_owners_only platformW [1, 2] (some 1) 4 3 8 (by decide)⟩

/-! ## Claim C2: error routing for new-message vs edit-triggered invocations -/

/-- C2, counterexample to the claim as stated: an edit-triggered
re-invocation fails with error `7` and the command has its own error
callback (`hasOwnHandler = true`), yet `Framework::event`'s `MessageUpdate`
arm hands the error straight to the framework-wide handler and the
command's own callback is never called. -/
theorem C2_counterexample :
    (handleEvent sTracked
        (FEvent.messageUpdate uClear (DispatchOutcome.errSome 7 true))).2 =
      [Invocation.globalOnError 7 ErrTag.commandPrefixTag] ∧
    Invocation.commandOnError 7 ∉
      (handleEvent sTracked
        (FEvent.messageUpdate uClear (DispatchOutcome.errSome 7 true))).2 := by
  decide

/-- C2, amended: for a command failure triggered by a newly created message
the command's own error callback receives the error exactly when present,
the framework-wide handler exactly when absent; for an edit-triggered
re-invocation (a `MessageUpdate` event with edit tracking configured) the
error always goes to the framework-wide handler, tagged as a prefix command
error, and the command's own callback is never invoked even when present. -/
theorem C2_error_routing {U E : Type} (s : FrameworkModel U E) (e : E)
    (own : Bool) (u : MessageUpdateEvent) :
    ((Invocation.commandOnError e ∈
        (handleEvent s (FEvent.message (DispatchOutcome.errSome e own))).2 ↔
      own = true) ∧
     (Invocation.globalOnError e ErrTag.commandPrefixTag ∈
        (handleEvent s (FEvent.message (DispatchOutcome.errSome e own))).2 ↔
      own = false)) ∧
    (s.edit_tracker.isSome →
      (Invocation.globalOnError e ErrTag.commandPrefixTag ∈
         (handleEvent s (FEvent.messageUpdate u (DispatchOutcome.errSome e own))).2 ∧
       ∀ e2 : E, Invocation.commandOnError e2 ∉
         (handleEvent s (FEvent.messageUpdate u (DispatchOutcome.errSome e own))).2)) := by
  constructor
  · unfold handleEvent handleMatch
    cases own <;> by_cases h : s.user_data.isSome <;> simp [h]
  · intro htrk
    obtain ⟨t, ht⟩ := Option.isSome_iff_exists.mp htrk
    unfold handleEvent handleMatch
    rw [ht]
    by_cases h : s.user_data.isSome <;> simp [h]

/-- C2, witness for the amended routing, on the concrete state `sTracked`:
a new-message failure with an own handler goes to the command callback; the
edit-triggered failure goes to the global handler. -/
theorem C2_error_routing_witness :
    (Invocation.commandOnError 7 ∈
      (handleEvent sTracked (FEvent.message (DispatchOutcome.errSome 7 true))).2) ∧
    (Invocation.globalOnError 7 ErrTag.commandPrefixTag ∈
      (handleEvent sTracked
        (FEvent.messageUpdate uClear (DispatchOutcome.errSome 7 true))).2) :=
  ⟨((C2_error_routing sTracked 7 true uClear).1.1).mpr rfl,
   ((C2_error_routing sTracked 7 true uClear).2 (by decide)).1⟩

/-! ## Framework event lemmas shared by claims C7 and C9 -/

/-- A ready event always refreshes the stored bot identity and always leaves
the one-shot setup slot empty afterwards. -/
theorem handleEvent_ready_state {U E : Type} (s : FrameworkModel U E)
    (id : UserId) :
    (handleEvent s (FEvent.ready id)).1.bot_id = some id ∧
    (handleEvent s (FEvent.ready id)).1.user_data_setup = none := by
  unfold handleEvent handleMatch
  cases hs : s.user_data_setup with
  | none => by_cases h : s.user_data.isSome <;> simp [hs, h]
  | some setup =>
    cases setup with
    | ok u =>
      by_cases h : s.user_data.isNone <;>
        by_cases h2 : s.user_data.isSome <;> simp [hs, h, h2]
    | error e => by_cases h : s.user_data.isSome <;> simp [hs, h]

/-- Once the setup slot is empty it stays empty, and the setup callback is
never called again, whatever the event. -/
theorem handleEvent_no_setup {U E : Type} (s : FrameworkModel U E)
    (ev : FEvent E) (h : s.user_data_setup = none) :
    (handleEvent s ev).1.user_data_setup = none ∧
    Invocation.setupCall ∉ (handleEvent s ev).2 := by
  cases ev with
  | ready id =>
    unfold handleEvent handleMatch
    by_cases h2 : s.user_data.isSome <;> simp [h, h2]
  | message outcome =>
    unfold handleEvent handleMatch
    cases outcome with
    | ok => by_cases h2 : s.user_data.isSome <;> simp [h, h2]
    | errNone => by_cases h2 : s.user_data.isSome <;> simp [h, h2]
    | errSome e own =>
      cases own <;> by_cases h2 : s.user_data.isSome <;> simp [h, h2]
  | messageUpdate u outcome =>
    unfold handleEvent handleMatch
    cases ht : s.edit_tracker with
    | none => by_cases h2 : s.user_data.isSome <;> simp [h, h2]
    | some t =>
      cases outcome with
      | ok => by_cases h2 : s.user_data.isSome <;> simp [h, h2]
      | errNone => by_cases h2 : s.user_data.isSome <;> simp [h, h2]
      | errSome e own => by_cases h2 : s.user_data.isSome <;> simp [h, h2]
  | messageDelete id delete_ok =>
    unfold handleEvent handleMatch
    cases ht : s.edit_tracker with
    | none => by_cases h2 : s.user_data.isSome <;> simp [h, h2]
    | some t =>
      cases hf : t.find_bot_response id with
      | none => by_cases h2 : s.user_data.isSome <;> simp [h, h2, hf]
      | some resp =>
        cases delete_ok <;> by_cases h2 : s.user_data.isSome <;> simp [h, h2, hf]
  | other =>
    unfold handleEvent handleMatch
    by_cases h2 : s.user_data.isSome <;> simp [h, h2]

/-! ## Claim C7: setup runs once; later ready events still refresh identity -/

/-- From any state whose setup slot is already empty, every further ready
event skips the setup callback but refreshes the stored bot identity from
the event. -/
theorem runTrace_ready_no_setup {U E : Type} (ids : List UserId)
    (s : FrameworkModel U E) (hs : s.user_data_setup = none) :
    List.Forall₂
      (fun entry id => Invocation.setupCall ∉ entry.2 ∧ entry.1.bot_id = some id)
      (runTrace s (ids.map FEvent.ready)) ids := by
  induction ids generalizing s with
  | nil => exact List.Forall₂.nil
  | cons id rest ih =>
    rw [List.map_cons, runTrace]
    refine List.Forall₂.cons ⟨?_, ?_⟩ ?_
    · exact (handleEvent_no_setup s (FEvent.ready id) hs).2
    · exact (handleEvent_ready_state s id).1
    · exact ih (handleEvent s (FEvent.ready id)).1
        (handleEvent_ready_state s id).2

/-- C7: starting from a fresh framework, the first ready event invokes the
user-data setup callback and stores the bot identity; every subsequent ready
event skips the setup callback (it was consumed) but still refreshes the
stored bot identity from its event data. -/
theorem C7_setup_once {U E : Type} (setup : Except E U)
    (trk : Option EditTracker) (id0 : UserId) (ids : List UserId) :
    Invocation.setupCall ∈
      (handleEvent (initModel U E setup trk) (FEvent.ready id0)).2 ∧
    (handleEvent (initModel U E setup trk) (FEvent.ready id0)).1.bot_id =
      some id0 ∧
    List.Forall₂
      (fun entry id => Invocation.setupCall ∉ entry.2 ∧ entry.1.bot_id = some id)
      (runTrace (handleEvent (initModel U E setup trk) (FEvent.ready id0)).1
        (ids.map FEvent.ready)) ids := by
  refine ⟨?_, (handleEvent_ready_state _ id0).1,
    runTrace_ready_no_setup ids _ (handleEvent_ready_state _ id0).2⟩
  unfold handleEvent handleMatch initModel
  cases setup with
  | ok u => simp
  | error e => simp

/-- C7, witness: two concrete ready events; setup runs on the first, the
second still refreshes the bot id to `9`. -/
theorem C7_setup_once_witness :
    Invocation.setupCall ∈
      (handleEvent (initModel Unit Nat (Except.ok ()) none) (FEvent.ready 4)).2 ∧
    (handleEvent (initModel Unit Nat (Except.ok ()) none)
        (FEvent.ready 4)).1.bot_id = some 4 ∧
    List.Forall₂
      (fun entry id => Invocation.setupCall ∉ entry.2 ∧ entry.1.bot_id = some id)
      (runTrace (handleEvent (initModel Unit Nat (Except.ok ()) none)
          (FEvent.ready 4)).1 ([9].map FEvent.ready)) [9] :=
  C7_setup_once (Except.ok ()) none 4 [9]

/-! ## Claim C9: a failed setup starves `get_user_data` and the listener -/

/-- In a state where the setup callback has been consumed and `user_data`
was never set, every event leaves both that way, never calls the setup
callback again, and never reaches the trailing listener call (which first
awaits `get_user_data`). -/
theorem handleEvent_dead {U E : Type} (s : FrameworkModel U E) (ev : FEvent E)
    (h1 : s.user_data_setup = none) (h2 : s.user_data = none) :
    (handleEvent s ev).1.user_data_setup = none ∧
    (handleEvent s ev).1.user_data = none ∧
    Invocation.setupCall ∉ (handleEvent s ev).2 ∧
    Invocation.listenerCall ∉ (handleEvent s ev).2 := by
  cases ev with
  | ready id => unfold handleEvent handleMatch; simp [h1, h2]
  | message outcome =>
    unfold handleEvent handleMatch
    cases outcome with
    | ok => simp [h1, h2]
    | errNone => simp [h1, h2]
    | errSome e own => cases own <;> simp [h1, h2]
  | messageUpdate u outcome =>
    unfold handleEvent handleMatch
    cases ht : s.edit_tracker with
    | none => simp [h1, h2]
    | some t =>
      cases outcome with
      | ok => simp [h1, h2]
      | errNone => simp [h1, h2]
      | errSome e own => simp [h1, h2]
  | messageDelete id delete_ok =>
    unfold handleEvent handleMatch
    cases ht : s.edit_tracker with
    | none => simp [h1, h2]
    | some t =>
      cases hf : t.find_bot_response id with
      | none => simp [h1, h2, hf]
      | some resp => cases delete_ok <;> simp [h1, h2, hf]
  | other => unfold handleEvent handleMatch; simp [h1, h2]

theorem runTrace_dead {U E : Type} (evs : List (FEvent E))
    (s : FrameworkModel U E) (h1 : s.user_data_setup = none)
    (h2 : s.user_data = none) :
    ∀ entry ∈ runTrace s evs,
      entry.1.user_data_setup = none ∧ entry.1.user_data = none ∧
      Invocation.setupCall ∉ entry.2 ∧ Invocation.listenerCall ∉ entry.2 := by
  induction evs generalizing s with
  | nil => intro entry hmem; simp [runTrace] at hmem
  | cons ev evs ih =>
    intro entry hmem
    rw [runTrace] at hmem
    rcases List.mem_cons.mp hmem with hhead | htail
    · rw [hhead]
      exact handleEvent_dead s ev h1 h2
    · have hd := handleEvent_dead s ev h1 h2
      exact ih (handleEvent s ev).1 hd.1 hd.2.1 entry htail

/-- C9: if the setup callback fails on the first ready event, the `Option`
holding it has already been taken, so no later event can run it again and
`user_data` is never set; hence the `get_user_data` busy-wait loop returns
for no amount of fuel, and the trailing listener call — which awaits
`get_user_data` — never happens for any event processed afterwards (nor for
the failing ready event itself). -/
theorem C9_failed_setup {U E : Type} (e : E) (trk : Option EditTracker)
    (id0 : UserId) (evs : List (FEvent E)) :
    (handleEvent (initModel U E (Except.error e) trk)
        (FEvent.ready id0)).1.user_data_setup = none ∧
    (handleEvent (initModel U E (Except.error e) trk)
        (FEvent.ready id0)).1.user_data = none ∧
    Invocation.listenerCall ∉
      (handleEvent (initModel U E (Except.error e) trk) (FEvent.ready id0)).2 ∧
    (∀ fuel : Nat,
      get_user_data_fuel fuel
        (handleEvent (initModel U E (Except.error e) trk)
          (FEvent.ready id0)).1.user_data = (none : Option U)) ∧
    ∀ entry ∈ runTrace
        (handleEvent (initModel U E (Except.error e) trk) (FEvent.ready id0)).1
        evs,
      entry.1.user_data_setup = none ∧ entry.1.user_data = none ∧
      Invocation.setupCall ∉ entry.2 ∧ Invocation.listenerCall ∉ entry.2 := by
  have hstate : (handleEvent (initModel U E (Except.error e) trk)
      (FEvent.ready id0)).1.user_data_setup = none ∧
      (handleEvent (initModel U E (Except.error e) trk)
        (FEvent.ready id0)).1.user_data = none := by
    unfold handleEvent handleMatch initModel
    simp
  have hfuel : ∀ fuel : Nat,
      get_user_data_fuel fuel (none : Option U) = (none : Option U) := by
    intro fuel
    induction fuel with
    | zero => rfl
    | succ n ih => rw [get_user_data_fuel]; exact ih
  refine ⟨hstate.1, hstate.2, ?_, ?_, ?_⟩
  · unfold handleEvent handleMatch initModel
    simp
  · intro fuel
    rw [hstate.2]
    exact hfuel fuel
  · exact runTrace_dead evs _ hstate.1 hstate.2

/-- C9, witness: the theorem at a concrete failing setup (`error 3`) and a
concrete follow-up event list containing a ready, a message and a delete
event. -/
theorem C9_failed_setup_witness :
    (handleEvent (initModel Unit Nat (Except.error 3) (some tOne))
        (FEvent.ready 4)).1.user_data_setup = none ∧
    (handleEvent (initModel Unit Nat (Except.error 3) (some tOne))
        (FEvent.ready 4)).1.user_data = none ∧
    Invocation.listenerCall ∉
      (handleEvent (initModel Unit Nat (Except.error 3) (some tOne))
        (FEvent.ready 4)).2 ∧
    (∀ fuel : Nat,
      get_user_data_fuel fuel
        (handleEvent (initModel Unit Nat (Except.error 3) (some tOne))
          (FEvent.ready 4)).1.user_data = (none : Option Unit)) ∧
    ∀ entry ∈ runTrace
        (handleEvent (initModel Unit Nat (Except.error 3) (some tOne))
          (FEvent.ready 4)).1
        [FEvent.ready 9, FEvent.message DispatchOutcome.ok,
         FEvent.messageDelete 10 false],
      entry.1.user_data_setup = none ∧ entry.1.user_data = none ∧
      Invocation.setupCall ∉ entry.2 ∧ Invocation.listenerCall ∉ entry.2 :=
  C9_failed_setup 3 (some tOne) 4
    [FEvent.ready 9, FEvent.message DispatchOutcome.ok,
     FEvent.messageDelete 10 false]

/-! ## Claim C8: best-effort delete of the tracked response -/

/-- C8: on a message-deletion event with edit tracking configured, the
framework attempts to delete the tracked bot response exactly when the
lookup by the deleted trigger id finds one; when that delete fails the
failure is logged, and in every case no error — of either the command or
the listener flavor — is handed to any error callback from this event
(`bot_response.delete` errors are `serenity::Error`, not command errors,
and the branch only prints them). -/
theorem C8_delete_best_effort {U E : Type} (s : FrameworkModel U E)
    (t : EditTracker) (id : MessageId) (delete_ok : Bool)
    (h : s.edit_tracker = some t) :
    (Invocation.deleteAttempt id ∈
        (handleEvent s (FEvent.messageDelete id delete_ok)).2 ↔
      (t.find_bot_response id).isSome) ∧
    ((t.find_bot_response id).isSome → delete_ok = false →
      Invocation.logDeleteWarning ∈
        (handleEvent s (FEvent.messageDelete id delete_ok)).2) ∧
    (∀ e2 : E, Invocation.commandOnError e2 ∉
      (handleEvent s (FEvent.messageDelete id delete_ok)).2) ∧
    (∀ (e2 : E) (tag : ErrTag), Invocation.globalOnError e2 tag ∉
      (handleEvent s (FEvent.messageDelete id delete_ok)).2) := by
  unfold handleEvent handleMatch
  rw [h]
  cases hf : t.find_bot_response id with
  | none => by_cases h2 : s.user_data.isSome <;> simp [h2, hf]
  | some resp =>
    cases delete_ok <;> by_cases h2 : s.user_data.isSome <;> simp [h2, hf]

/-- C8, witness: on the concrete tracked state `sTracked`, deleting trigger
`10` whose response delete fails: the delete is attempted, the failure is
logged, and no error callback receives anything. -/
theorem C8_delete_best_effort_witness :
    (Invocation.deleteAttempt 10 ∈
        (handleEvent sTracked (FEvent.messageDelete 10 false)).2 ↔
      (tOne.find_bot_response 10).isSome) ∧
    ((tOne.find_bot_response 10).isSome → false = false →
      Invocation.logDeleteWarning ∈
        (handleEvent sTracked (FEvent.messageDelete 10 false)).2) ∧
    (∀ e2 : Nat, Invocation.commandOnError e2 ∉
      (handleEvent sTracked (FEvent.messageDelete 10 false)).2) ∧
    (∀ (e2 : Nat) (tag : ErrTag), Invocation.globalOnError e2 tag ∉
      (handleEvent sTracked (FEvent.messageDelete 10 false)).2) :=
  C8_delete_best_effort sTracked tOne 10 false (by decide)

/-! ## Claim C10: allowed mentions only on brand-new responses -/

/-- C10: `send_prefix_reply` edits the existing tracked response exactly
when edit tracking is active for the invocation and a tracked response for
the trigger exists; the edit request it then builds never carries the
framework-configured allowed mentions, while the send request built for a
brand-new response always carries them. -/
theorem C10_allowed_mentions (cmd_track_edits : Option Bool)
    (framework_tracker : Option EditTracker) (allowed_mentions : Option Nat)
    (msg : Message) (reply : CreateReply) (new_response : Message) :
    ((∃ r, (send_prefix_reply cmd_track_edits framework_tracker allowed_mentions
        msg reply new_response).1 = ReplyAction.editExisting r) ↔
      ((lock_edit_tracker cmd_track_edits framework_tracker).bind
        (fun t => t.find_bot_response msg.id)).isSome) ∧
    (∀ r, (send_prefix_reply cmd_track_edits framework_tracker allowed_mentions
        msg reply new_response).1 = ReplyAction.editExisting r →
      r.allowed_mentions = none) ∧
    (∀ r, (send_prefix_reply cmd_track_edits framework_tracker allowed_mentions
        msg reply new_response).1 = ReplyAction.sendNew r →
      r.allowed_mentions = allowed_mentions) := by
  unfold send_prefix_reply
  cases hex : (lock_edit_tracker cmd_track_edits framework_tracker).bind
      (fun t => t.find_bot_response msg.id) with
  | none => simp [hex]
  | some response =>
    refine ⟨?_, ?_, ?_⟩
    · simp [hex]
    · intro r hr
      simp [hex] at hr
      rw [← hr]
    · intro r hr
      simp [hex] at hr

/-- C10, witness: with edit tracking active and a tracked response for
trigger `10`, the reply `replyW` turns into the edit request `editRequestW`
with no allowed mentions; on an untracked trigger it turns into the send
request `sendRequestW` carrying the configured allowed mentions `some 5`. -/
theorem C10_allowed_mentions_witness :
    (editRequestW.allowed_mentions = none) ∧
    (sendRequestW.allowed_mentions = some 5) :=
  ⟨(C10_allowed_mentions none (some tOne) (some 5) mTrig replyW mResp2).2.1
      editRequestW (by decide),
   (C10_allowed_mentions none (some tOne) (some 5) mResp replyW mResp2).2.2
      sendRequestW (by decide)⟩

end Poise
